import Mathlib

/-!
Shallow embedding of the bravo Minecraft server protocol core
(bravo/protocols/beta.py): the chunk streaming tables, the dig and build
pipeline, window handling and the session lifecycle, together with proofs
about their behaviour.
-/

namespace Bravo

/-- Block faces as carried by dig and build packets. -/
inductive Face where
  | nx
  | px
  | ny
  | py
  | nz
  | pz
  | noop
  deriving DecidableEq, Repr

/-- Abstract packets written to a transport, one constructor per make_packet
tag used by the handlers under study. -/
inductive Packet where
  | errorPkt
  | ping
  | timePkt (t : Int)
  | chatPkt (msg : String)
  | prechunk (x z : Int) (enabled : Bool)
  | chunkPayload (x z : Int)
  | entitySpawn (eid : Nat)
  | signTile (x y z : Int)
  | destroyPkt (eid : Nat)
  | windowToken (wid : Nat) (token : Int) (ack : Bool)
  | inventoryData
  | entityEquipment (eid slot primary secondary : Nat)
  | windowOpen (wid : Nat)
  deriving DecidableEq, Repr

/-- Python xrange(lo, hi): the integers n with lo <= n < hi, in order. -/
def pyRange (lo hi : Int) : List Int :=
  (List.range (hi - lo).toNat).map (fun (n : Nat) => lo + (n : Int))

/-- The circle table at the top of beta.py: itertools.product(xrange(-10, 10),
xrange(-10, 10)) filtered by i**2 + j**2 <= 100. -/
def circle : List (Int × Int) :=
  ((pyRange (-10) 10).flatMap
      (fun i => (pyRange (-10) 10).map (fun j => (i, j)))).filter
    (fun p => decide (p.1 * p.1 + p.2 * p.2 ≤ 100))

/-- The fresh visible set computed by update_chunks: the circle offsets
translated by the chunk coordinates of the player. -/
def updateChunksNew (cx cz : Int) : List (Int × Int) :=
  circle.map (fun p => (p.1 + cx, p.2 + cz))

theorem mem_pyRange {lo hi n : Int} : n ∈ pyRange lo hi ↔ lo ≤ n ∧ n < hi := by
  unfold pyRange
  rw [List.mem_map]
  constructor
  · rintro ⟨k, hk, rfl⟩
    rw [List.mem_range] at hk
    omega
  · rintro ⟨h1, h2⟩
    refine ⟨(n - lo).toNat, ?_, ?_⟩
    · rw [List.mem_range]
      omega
    · omega

theorem mem_circle {i j : Int} :
    (i, j) ∈ circle ↔
      -10 ≤ i ∧ i < 10 ∧ -10 ≤ j ∧ j < 10 ∧ i * i + j * j ≤ 100 := by
  unfold circle
  rw [List.mem_filter]
  simp only [List.mem_flatMap, List.mem_map, decide_eq_true_eq]
  constructor
  · rintro ⟨⟨a, ha, b, hb, hab⟩, hle⟩
    obtain ⟨rfl, rfl⟩ := Prod.mk.injEq .. ▸ hab
    rw [mem_pyRange] at ha hb
    exact ⟨ha.1, ha.2, hb.1, hb.2, by exact_mod_cast hle⟩
  · rintro ⟨h1, h2, h3, h4, h5⟩
    refine ⟨⟨i, ?_, j, ?_, rfl⟩, ?_⟩
    · exact mem_pyRange.mpr ⟨h1, h2⟩
    · exact mem_pyRange.mpr ⟨h3, h4⟩
    · exact h5

/-- Claim C3, counterexample: the offset (10, 0) satisfies i * i + j * j <= 100
with i and j in the inclusive range [-10, 10], yet it is not a member of the
circle table, and consequently the chunk (10, 0) is not in the visible set of a
player standing in chunk (0, 0). The claim as stated is therefore false: the
ranges in the source are xrange(-10, 10), which excludes 10. -/
theorem c3_boundary_offset_missing :
    (10 * 10 + 0 * 0 ≤ 100) ∧
    (-10 ≤ (10 : Int) ∧ (10 : Int) ≤ 10 ∧ -10 ≤ (0 : Int) ∧ (0 : Int) ≤ 10) ∧
    ((10, 0) : Int × Int) ∉ circle ∧
    ((10, 0) : Int × Int) ∉ updateChunksNew 0 0 := by
  decide

/-- Claim C3 (amended): the circle table contains exactly the offsets (i, j)
with i and j in [-10, 9] (that is, xrange(-10, 10)) and i * i + j * j <= 100;
offsets with i = 10 or j = 10 are excluded. The visible set computed by
update_chunks for a player in chunk (cx, cz) is exactly the translation of the
circle table by (cx, cz). -/
theorem c3_circle_amended :
    (∀ i j : Int, (i, j) ∈ circle ↔
      (-10 ≤ i ∧ i < 10 ∧ -10 ≤ j ∧ j < 10 ∧ i * i + j * j ≤ 100)) ∧
    (∀ cx cz : Int, ∀ p : Int × Int,
      p ∈ updateChunksNew cx cz ↔
        ∃ i j : Int, (i, j) ∈ circle ∧ p = (i + cx, j + cz)) := by
  constructor
  · intro i j
    exact mem_circle
  · intro cx cz p
    unfold updateChunksNew
    rw [List.mem_map]
    constructor
    · rintro ⟨⟨a, b⟩, hab, rfl⟩
      exact ⟨a, b, hab, rfl⟩
    · rintro ⟨i, j, hij, rfl⟩
      exact ⟨(i, j), hij, rfl⟩

/-- Concrete instantiation of the amended circle characterization. -/
theorem c3_circle_amended_witness :
    ((9 : Int), (0 : Int)) ∈ circle ∧
    ((9 : Int), (2 : Int)) ∈ updateChunksNew 0 2 := by
  constructor
  · exact (c3_circle_amended.1 9 0).mpr (by decide)
  · exact (c3_circle_amended.2 0 2 (9, 2)).mpr
      ⟨9, 0, (c3_circle_amended.1 9 0).mpr (by decide), rfl⟩

/-- Python int() on a rational: truncation toward zero. -/
def pyInt (q : ℚ) : Int :=
  if 0 ≤ q then ⌊q⌋ else ⌈q⌉

/-- The block coordinate stored by the position handler for one horizontal
axis: int(v) if v > 0 else int(v) - 1, exactly as in BetaServerProtocol.position. -/
def storedBlockCoord (q : ℚ) : Int :=
  if 0 < q then pyInt q else pyInt q - 1

/-- Player location as mutated by the position handler: the handler stores
whole block coordinates into x, y and z. -/
structure Loc where
  x : Int
  y : Int
  z : Int
  stance : ℚ
  grounded : Bool
  deriving DecidableEq, Repr

/-- Payload of a position packet. -/
structure PosPacket where
  px : ℚ
  py : ℚ
  pz : ℚ
  stance : ℚ
  grounded : Bool
  deriving DecidableEq, Repr

/-- BetaServerProtocol.position: store truncated block coordinates, stance and
the grounded flag, and report whether position_changed fires (the old block
triple differs from the new one). -/
def positionHandler (loc : Loc) (c : PosPacket) : Loc × Bool :=
  let nx := storedBlockCoord c.px
  let ny := pyInt c.py
  let nz := storedBlockCoord c.pz
  let changed := decide ((loc.x, loc.y, loc.z) ≠ (nx, ny, nz))
  ({ loc with
      x := nx
      y := ny
      z := nz
      stance := c.stance
      grounded := c.grounded }, changed)

theorem ceil_eq_floor_add_one_of_not_int {q : ℚ} (h : ∀ n : Int, q ≠ (n : ℚ)) :
    ⌈q⌉ = ⌊q⌋ + 1 := by
  have h1 : (⌊q⌋ : ℚ) < q :=
    lt_of_le_of_ne (Int.floor_le q) (fun e => h ⌊q⌋ e.symm)
  have h2 : ⌊q⌋ < ⌈q⌉ := Int.lt_ceil.mpr h1
  have h3 : ⌈q⌉ ≤ ⌊q⌋ + 1 := by
    apply Int.ceil_le.mpr
    push_cast
    exact le_of_lt (Int.lt_floor_add_one q)
  omega

theorem storedBlockCoord_pos {q : ℚ} (h : 0 < q) : storedBlockCoord q = ⌊q⌋ := by
  unfold storedBlockCoord pyInt
  rw [if_pos h, if_pos (le_of_lt h)]

theorem storedBlockCoord_neg_not_int {q : ℚ} (h : q < 0)
    (h2 : ∀ n : Int, q ≠ (n : ℚ)) : storedBlockCoord q = ⌊q⌋ := by
  unfold storedBlockCoord pyInt
  rw [if_neg (not_lt.mpr (le_of_lt h)), if_neg (not_le.mpr h),
    ceil_eq_floor_add_one_of_not_int h2]
  omega

theorem storedBlockCoord_intCast {n : Int} (h : n ≤ 0) :
    storedBlockCoord (n : ℚ) = n - 1 := by
  unfold storedBlockCoord pyInt
  rcases lt_or_eq_of_le h with h1 | h1
  · have hq : (n : ℚ) < 0 := by exact_mod_cast h1
    rw [if_neg (not_lt.mpr (le_of_lt hq)), if_neg (not_le.mpr hq),
      Int.ceil_intCast]
  · subst h1
    norm_num

/-- Starting location used to exercise the position handler. -/
def c8Loc : Loc :=
  { x := 100, y := 100, z := 100, stance := 0, grounded := false }

/-- Claim C8, counterexample: the claim says x = 0 yields block 0 and an exact
negative integer x yields block x itself, but the position handler takes the
minus-one branch whenever x > 0 fails, so x = 0 is stored as -1 and x = -3 is
stored as -4. -/
theorem c8_zero_and_negative_integer :
    (positionHandler c8Loc
        { px := 0, py := 64, pz := 5, stance := 65, grounded := true }).1.x
      = -1 ∧
    (positionHandler c8Loc
        { px := -3, py := 64, pz := 5, stance := 65, grounded := true }).1.x
      = -4 ∧
    (-1 : Int) ≠ 0 ∧ (-4 : Int) ≠ -3 := by
  refine ⟨?_, ?_, by decide, by decide⟩
  · show storedBlockCoord 0 = -1
    have := @storedBlockCoord_intCast 0 (by omega)
    simpa using this
  · show storedBlockCoord (-3) = -4
    have := @storedBlockCoord_intCast (-3) (by omega)
    norm_num at this
    simpa using this

/-- Claim C8 (amended): the stored block coordinate is int(v) when v > 0 and
int(v) - 1 otherwise, for both x and z. Hence a positive coordinate and a
fractional negative coordinate are both floored (x = -0.5 becomes block -1),
while v = 0 is stored as -1 and an exact nonpositive integer v is stored
as v - 1. -/
theorem c8_truncation_amended (loc : Loc) (c : PosPacket) :
    (0 < c.px → (positionHandler loc c).1.x = ⌊c.px⌋) ∧
    (c.px < 0 → (∀ n : Int, c.px ≠ (n : ℚ)) →
      (positionHandler loc c).1.x = ⌊c.px⌋) ∧
    (∀ n : Int, n ≤ 0 → c.px = (n : ℚ) → (positionHandler loc c).1.x = n - 1) ∧
    (0 < c.pz → (positionHandler loc c).1.z = ⌊c.pz⌋) ∧
    (c.pz < 0 → (∀ n : Int, c.pz ≠ (n : ℚ)) →
      (positionHandler loc c).1.z = ⌊c.pz⌋) ∧
    (∀ n : Int, n ≤ 0 → c.pz = (n : ℚ) → (positionHandler loc c).1.z = n - 1) := by
  have hx : (positionHandler loc c).1.x = storedBlockCoord c.px := rfl
  have hz : (positionHandler loc c).1.z = storedBlockCoord c.pz := rfl
  rw [hx, hz]
  refine ⟨fun h => storedBlockCoord_pos h,
    fun h h2 => storedBlockCoord_neg_not_int h h2,
    fun n hn he => ?_,
    fun h => storedBlockCoord_pos h,
    fun h h2 => storedBlockCoord_neg_not_int h h2,
    fun n hn he => ?_⟩
  · rw [he]
    exact storedBlockCoord_intCast hn
  · rw [he]
    exact storedBlockCoord_intCast hn

/-- Concrete instantiation of the amended truncation behaviour: x = 5/2 is
stored as 2 and z = -1/2 is stored as -1. -/
theorem c8_truncation_amended_witness :
    (positionHandler c8Loc
        { px := 5 / 2, py := 64, pz := -1 / 2, stance := 65,
          grounded := true }).1.x = 2 ∧
    (positionHandler c8Loc
        { px := 5 / 2, py := 64, pz := -1 / 2, stance := 65,
          grounded := true }).1.z = -1 := by
  have h := c8_truncation_amended c8Loc
    { px := 5 / 2, py := 64, pz := -1 / 2, stance := 65, grounded := true }
  constructor
  · rw [h.1 (by norm_num)]
    norm_num [Int.floor_eq_iff]
  · rw [h.2.2.2.2.1 (by norm_num) ?_]
    · norm_num [Int.floor_eq_iff]
    · intro n hn
      have h2 : (n : ℚ) * 2 = -1 := by
        rw [← hn]
        ring
      have h3 : (n * 2 : Int) = -1 := by exact_mod_cast h2
      omega

/-- Python exception kinds raised by the handlers under study. -/
inductive PyErr where
  | attributeError
  | unboundLocalError
  | indexError
  deriving DecidableEq, Repr

/-- Keys of the session chunk dictionary. All insertions into self.chunks use
a coordinate pair, but Python allows looking up any value, so a dictionary key
is either a plain integer or a pair. -/
inductive PyKey where
  | intKey (n : Int)
  | pairKey (x z : Int)
  deriving DecidableEq, Repr

/-- A chunk as consumed by the handlers: coordinates, the eids of its
entities, the coordinates of its sign tiles and its block array (modelled as
an association list over local coordinates). -/
structure Chunk where
  cx : Int
  cz : Int
  entities : List Nat
  signs : List (Int × Int × Int)
  blockData : List ((Int × Int × Int) × Nat)
  deriving DecidableEq, Repr

/-- Values of the session chunk dictionary: chunks are the values actually
stored, while a plain integer is what dict.pop hands back when it is given an
integer default. -/
inductive PyVal where
  | intVal (n : Int)
  | chunkVal (c : Chunk)
  deriving DecidableEq, Repr

/-- The per-session chunk cache self.chunks, a Python dictionary. -/
abbrev ChunkDict := List (PyKey × PyVal)

/-- Dictionary lookup. -/
def dictLookup (d : ChunkDict) (k : PyKey) : Option PyVal :=
  match d with
  | [] => none
  | (k2, v) :: rest => if k2 = k then some v else dictLookup rest k

/-- Python dict.pop(key, default): remove and return the value bound to key if
present, otherwise return default and leave the dictionary unchanged. -/
def dictPop (d : ChunkDict) (k : PyKey) (dft : PyVal) : PyVal × ChunkDict :=
  match dictLookup d k with
  | some v => (v, d.filter (fun kv => decide (kv.1 ≠ k)))
  | none => (dft, d)

/-- Dictionary insertion (used by send_chunk). -/
def dictInsert (d : ChunkDict) (k : PyKey) (v : PyVal) : ChunkDict :=
  d.filter (fun kv => decide (kv.1 ≠ k)) ++ [(k, v)]

/-- Outcome of BravoProtocol.disable_chunk. -/
structure DisableResult where
  chunks : ChunkDict
  packets : List Packet
  err : Option PyErr
  deriving DecidableEq, Repr

/-- BravoProtocol.disable_chunk: the source calls self.chunks.pop(x, z), which
is dict.pop with key x and default z, then iterates chunk.entities and sends
the prechunk disable packet. When the popped value is the integer default, the
attribute access chunk.entities raises AttributeError. -/
def disable_chunk (chunks : ChunkDict) (x z : Int) : DisableResult :=
  let popped := dictPop chunks (PyKey.intKey x) (PyVal.intVal z)
  match popped.1 with
  | PyVal.chunkVal c =>
      { chunks := popped.2
        packets := c.entities.map Packet.destroyPkt ++ [Packet.prechunk x z false]
        err := none }
  | PyVal.intVal _ =>
      { chunks := popped.2, packets := [], err := some PyErr.attributeError }

/-- Outcome of BravoProtocol.enable_chunk: the chunk requests issued to the
world gateway, the packets written synchronously, and the resulting cache. -/
structure EnableResult where
  chunks : ChunkDict
  requests : List (Int × Int)
  packets : List Packet
  deriving DecidableEq, Repr

/-- BravoProtocol.enable_chunk: if (x, z) is already cached, return
succeed(None) without requesting or writing anything; otherwise issue
request_chunk(x, z) whose callback is send_chunk. -/
def enable_chunk (chunks : ChunkDict) (x z : Int) : EnableResult :=
  if dictLookup chunks (PyKey.pairKey x z) = none then
    { chunks := chunks, requests := [(x, z)], packets := [] }
  else
    { chunks := chunks, requests := [], packets := [] }

/-- BravoProtocol.send_chunk: write the prechunk enable packet, the chunk
payload, one packet per chunk entity and one per sign tile, then insert the
chunk into the cache. -/
def send_chunk (chunks : ChunkDict) (c : Chunk) : ChunkDict × List Packet :=
  (dictInsert chunks (PyKey.pairKey c.cx c.cz) (PyVal.chunkVal c),
    [Packet.prechunk c.cx c.cz true, Packet.chunkPayload c.cx c.cz]
      ++ c.entities.map Packet.entitySpawn
      ++ c.signs.map (fun t => Packet.signTile t.1 t.2.1 t.2.2))

/-- A concrete one-chunk cache: chunk (0, 0) with one entity, eid 7. -/
def c2Chunks : ChunkDict :=
  [(PyKey.pairKey 0 0, PyVal.chunkVal
    { cx := 0, cz := 0, entities := [7], signs := [], blockData := [] })]

/-- Claim C2: disable_chunk on a cached chunk coordinate is claimed to send a
destroy packet per entity, send prechunk enabled=0 and remove the entry. The
source instead calls self.chunks.pop(x, z), that is dict.pop with key x and
default z: with the cache holding chunk (0, 0) keyed by the pair (0, 0), the
integer key 0 is absent, the integer default 0 is returned, the entry is not
removed, no packet is written, and iterating chunk.entities over the integer
raises AttributeError. -/
theorem c2_disable_chunk_attribute_error :
    disable_chunk c2Chunks 0 0 =
      { chunks := c2Chunks, packets := [], err := some PyErr.attributeError }
    ∧ dictLookup c2Chunks (PyKey.pairKey 0 0) ≠ none := by
  decide

/-- Claim C9: enable_chunk on an already cached coordinate issues no
request_chunk call, writes nothing and leaves the cache unchanged. -/
theorem c9_enable_chunk_cached (chunks : ChunkDict) (x z : Int) (v : PyVal)
    (h : dictLookup chunks (PyKey.pairKey x z) = some v) :
    enable_chunk chunks x z =
      { chunks := chunks, requests := [], packets := [] } := by
  simp [enable_chunk, h]

/-- Concrete instantiation: enabling the cached chunk (0, 0) of c2Chunks is a
no-op. -/
theorem c9_enable_chunk_cached_witness :
    enable_chunk c2Chunks 0 0 =
      { chunks := c2Chunks, requests := [], packets := [] } :=
  c9_enable_chunk_cached c2Chunks 0 0
    (PyVal.chunkVal
      { cx := 0
        cz := 0
        entities := [7]
        signs := []
        blockData := [] })
    (by decide)

/-- A block or item record as resolved from the blocks and items tables:
its primary slot, its configured drop variant, whether it is breakable, and
its orientability data. -/
structure Block where
  slot : Nat
  drop : Nat
  breakable : Bool
  orientable : Bool
  orientFor : Face → Option Nat

/-- The BuildData namedtuple threaded through the pre-build hooks. -/
structure BuildData where
  block : Block
  metadata : Nat
  x : Int
  y : Int
  z : Int
  face : Face

/-- The BuildError exception raised by run_build, by cause. -/
inductive BuildErr where
  | itemNotBlock
  | cantOrient
  | cantConsume
  deriving DecidableEq, Repr

/-- Asynchronous world mutations issued by run_build. -/
inductive WorldOp where
  | setBlock (x y z : Int) (slot : Nat)
  | setMetadata (x y z : Int) (meta : Nat)
  deriving DecidableEq, Repr

/-- Offset coordinates by the build face, as at the end of run_build. -/
def offsetFace (face : Face) (x y z : Int) : Int × Int × Int :=
  match face with
  | Face.nx => (x - 1, y, z)
  | Face.px => (x + 1, y, z)
  | Face.ny => (x, y - 1, z)
  | Face.py => (x, y + 1, z)
  | Face.nz => (x, y, z - 1)
  | Face.pz => (x, y, z + 1)
  | Face.noop => (x, y, z)

/-- The world mutations issued at the end of run_build: set_block always, and
set_metadata exactly when the (possibly orientation-updated) metadata is
non-zero, both at the face-offset coordinates. -/
def buildOps (bd : BuildData) (metadata : Nat) : List WorldOp :=
  let c := offsetFace bd.face bd.x bd.y bd.z
  WorldOp.setBlock c.1 c.2.1 c.2.2 bd.block.slot ::
    (if metadata ≠ 0 then [WorldOp.setMetadata c.1 c.2.1 c.2.2 metadata] else [])

/-- The orientation step of run_build: when the metadata is still zero and
the block is orientable, replace it by orientation(face), raising BuildError
when that returns none. -/
def rbOrient (bd : BuildData) : Except BuildErr Nat :=
  if bd.metadata = 0 ∧ bd.block.orientable = true then
    match bd.block.orientFor bd.face with
    | none => Except.error BuildErr.cantOrient
    | some m => Except.ok m
  else
    Except.ok bd.metadata

/-- The inventory-consumption step of run_build: try (block.slot, 0) from the
held slot, then the configured drop variant, raising BuildError when both
fail. -/
def rbConsume {Inv : Type} (consume : Inv → Nat × Nat → Nat → Option Inv)
    (inv : Inv) (equipped : Nat) (bd : BuildData) : Except BuildErr Inv :=
  match consume inv (bd.block.slot, 0) equipped with
  | some inv2 => Except.ok inv2
  | none =>
      match consume inv (bd.block.drop, 0) equipped with
      | some inv2 => Except.ok inv2
      | none => Except.error BuildErr.cantConsume

/-- BravoProtocol.run_build over an abstract inventory. blockTable is
membership of a slot in the blocks table; consume is
inventory.consume((id, meta), held_slot), returning the updated inventory on
success and nothing on failure. The function either raises BuildError or
returns the world mutations together with the consumed-from inventory. -/
def run_build {Inv : Type} (blockTable : Nat → Bool)
    (consume : Inv → Nat × Nat → Nat → Option Inv)
    (inv : Inv) (equipped : Nat) (bd : BuildData) :
    Except BuildErr (List WorldOp × Inv) :=
  if blockTable bd.block.slot = false then
    Except.error BuildErr.itemNotBlock
  else
    match rbOrient bd with
    | Except.error e => Except.error e
    | Except.ok metadata =>
        match rbConsume consume inv equipped bd with
        | Except.error e => Except.error e
        | Except.ok inv2 => Except.ok (buildOps bd metadata, inv2)

/-- The pre-build hook loop in BravoProtocol.build: each hook returns a
continue flag and a possibly mutated BuildData; on a false flag the loop
breaks. Returns the final BuildData and how many hooks ran. -/
def runPreHooks : List (BuildData → Bool × BuildData) → BuildData →
    BuildData × Nat
  | [], bd => (bd, 0)
  | h :: hs, bd =>
    let r := h bd
    if r.1 then
      let rest := runPreHooks hs r.2
      (rest.1, rest.2 + 1)
    else
      (r.2, 1)

/-- Observable outcome of the pre-build-to-flush portion of
BravoProtocol.build. -/
structure BuildOutcome (Inv : Type) where
  preHooksRun : Nat
  worldOps : List WorldOp
  inv : Inv
  postHooksRun : Nat
  inventoryResent : Bool
  chunksFlushed : Bool

/-- BravoProtocol.build from the pre-build hook loop onwards: run the hook
chain, call run_build on the resulting BuildData, return on BuildError, and
otherwise run every post-build hook, re-send the inventory and flush the
cached chunks. -/
def buildCommitPhase {Inv : Type} (blockTable : Nat → Bool)
    (consume : Inv → Nat × Nat → Nat → Option Inv)
    (preHooks : List (BuildData → Bool × BuildData)) (postHookCount : Nat)
    (inv : Inv) (equipped : Nat) (bd0 : BuildData) : BuildOutcome Inv :=
  let pre := runPreHooks preHooks bd0
  match run_build blockTable consume inv equipped pre.1 with
  | Except.error _ =>
      { preHooksRun := pre.2
        worldOps := []
        inv := inv
        postHooksRun := 0
        inventoryResent := false
        chunksFlushed := false }
  | Except.ok r =>
      { preHooksRun := pre.2
        worldOps := r.1
        inv := r.2
        postHooksRun := postHookCount
        inventoryResent := true
        chunksFlushed := true }

theorem rbOrient_error_iff (bd : BuildData) :
    (∃ e, rbOrient bd = Except.error e) ↔
      (bd.metadata = 0 ∧ bd.block.orientable = true ∧
        bd.block.orientFor bd.face = none) := by
  unfold rbOrient
  by_cases hm : bd.metadata = 0 ∧ bd.block.orientable = true
  · rw [if_pos hm]
    cases ho : bd.block.orientFor bd.face <;> simp [ho, hm.1, hm.2]
  · rw [if_neg hm]
    simp only [reduceCtorEq, exists_false, false_iff]
    intro h
    exact hm ⟨h.1, h.2.1⟩

theorem rbConsume_error_iff {Inv : Type}
    (consume : Inv → Nat × Nat → Nat → Option Inv)
    (inv : Inv) (equipped : Nat) (bd : BuildData) :
    (∃ e, rbConsume consume inv equipped bd = Except.error e) ↔
      (consume inv (bd.block.slot, 0) equipped = none ∧
        consume inv (bd.block.drop, 0) equipped = none) := by
  unfold rbConsume
  cases h1 : consume inv (bd.block.slot, 0) equipped
  · cases h2 : consume inv (bd.block.drop, 0) equipped <;> simp [h1, h2]
  · simp [h1]

/-- BuildData for an item (slot 300, outside any block table). -/
def c7Item : BuildData :=
  { block :=
      { slot := 300
        drop := 300
        breakable := false
        orientable := false
        orientFor := fun _ => none }
    metadata := 0
    x := 0
    y := 0
    z := 0
    face := Face.py }

/-- Claim C7: run_build raises BuildError exactly when the resolved block is
an item absent from the block table, or the metadata is zero, the block is
orientable and orientation(face) yields none, or both attempts to consume the
block from the inventory fail; and whenever run_build raises, the enclosing
build handler issues no world mutation, leaves the inventory untouched, runs
no post-build hook, re-sends nothing and flushes nothing. -/
theorem c7_run_build_failure {Inv : Type} (blockTable : Nat → Bool)
    (consume : Inv → Nat × Nat → Nat → Option Inv)
    (inv : Inv) (equipped : Nat) (bd : BuildData)
    (preHooks : List (BuildData → Bool × BuildData)) (postHookCount : Nat) :
    ((∃ e, run_build blockTable consume inv equipped bd = Except.error e) ↔
      (blockTable bd.block.slot = false ∨
        (bd.metadata = 0 ∧ bd.block.orientable = true ∧
          bd.block.orientFor bd.face = none) ∨
        (consume inv (bd.block.slot, 0) equipped = none ∧
          consume inv (bd.block.drop, 0) equipped = none))) ∧
    ((∃ e, run_build blockTable consume inv equipped
        (runPreHooks preHooks bd).1 = Except.error e) →
      buildCommitPhase blockTable consume preHooks postHookCount inv equipped
          bd =
        { preHooksRun := (runPreHooks preHooks bd).2
          worldOps := []
          inv := inv
          postHooksRun := 0
          inventoryResent := false
          chunksFlushed := false }) := by
  constructor
  · unfold run_build
    by_cases hbt : blockTable bd.block.slot = false
    · simp [hbt]
    · rw [if_neg hbt]
      cases ho : rbOrient bd with
      | error e =>
          simp only [reduceCtorEq, ho, hbt, false_or]
          have h2 := (rbOrient_error_iff bd).mp ⟨e, ho⟩
          simp [h2]
      | ok m =>
          have hno : ¬(bd.metadata = 0 ∧ bd.block.orientable = true ∧
              bd.block.orientFor bd.face = none) := by
            intro h
            obtain ⟨e, he⟩ := (rbOrient_error_iff bd).mpr h
            rw [ho] at he
            exact Except.noConfusion he
          cases hc : rbConsume consume inv equipped bd with
          | error e =>
              have h2 := (rbConsume_error_iff consume inv equipped bd).mp
                ⟨e, hc⟩
              simp [ho, hc, hbt, hno, h2]
          | ok inv2 =>
              have h2 : ¬(consume inv (bd.block.slot, 0) equipped = none ∧
                  consume inv (bd.block.drop, 0) equipped = none) := by
                intro h
                obtain ⟨e, he⟩ :=
                  (rbConsume_error_iff consume inv equipped bd).mpr h
                rw [hc] at he
                exact Except.noConfusion he
              simp [ho, hc, hbt, hno, h2]
  · rintro ⟨e, he⟩
    unfold buildCommitPhase
    simp only [he]

/-- Concrete instantiation of the C7 failure characterization: a block whose
slot is outside the block table makes run_build raise BuildError and makes
the build handler abort with no mutation. -/
theorem c7_run_build_failure_witness :
    (∃ e, run_build (fun _ => false) (fun _ _ _ => some ()) ()
      0 c7Item = Except.error e) ∧
    buildCommitPhase (fun _ => false) (fun _ _ _ => some ()) []
        0 () 0 c7Item =
      { preHooksRun := 0
        worldOps := []
        inv := ()
        postHooksRun := 0
        inventoryResent := false
        chunksFlushed := false } := by
  have h := c7_run_build_failure (fun _ => false)
    (fun _ _ _ => some ()) () 0 c7Item [] 0
  have h1 : (∃ e, run_build (fun _ => false)
      (fun _ _ _ => some ()) () 0 c7Item = Except.error e) :=
    h.1.mpr (Or.inl rfl)
  exact ⟨h1, h.2 h1⟩

/-- Dirt: block slot 3, not orientable, drops itself. -/
def c1Dirt : Block :=
  { slot := 3
    drop := 3
    breakable := true
    orientable := false
    orientFor := fun _ => none }

/-- Three pre-build hooks: the first mutates the metadata to 3 and continues,
the second vetoes (returns continue=false), the third would continue. -/
def c1PreHooks : List (BuildData → Bool × BuildData) :=
  [fun bd => (true, { bd with metadata := 3 }),
   fun bd => (false, bd),
   fun bd => (true, bd)]

/-- Placing dirt against the top face of (5, 64, 5). -/
def c1Data : BuildData :=
  { block := c1Dirt
    metadata := 0
    x := 5
    y := 64
    z := 5
    face := Face.py }

/-- The outcome of the build handler on c1Data with the vetoing hook chain, a
one-entry block table containing dirt and an always-succeeding consume. -/
def c1Outcome : BuildOutcome Unit :=
  buildCommitPhase (fun s => s == 3) (fun _ _ _ => some ()) c1PreHooks 1 () 0
    c1Data

/-- Claim C1: the claim says a continue=false pre-build hook skips the commit,
leaves world and inventory unchanged and invokes no post-build hook. In the
source the false flag only breaks out of the hook loop: run_build still runs,
so with the vetoing chain the third hook is skipped (two hooks run) but the
block is still placed, its metadata is still written, the post-build hook
still runs, the inventory is re-sent and the chunks are flushed. -/
theorem c1_veto_still_commits :
    c1Outcome.preHooksRun = 2 ∧
    c1Outcome.worldOps =
      [WorldOp.setBlock 5 65 5 3, WorldOp.setMetadata 5 65 5 3] ∧
    c1Outcome.postHooksRun = 1 ∧
    c1Outcome.inventoryResent = true ∧
    c1Outcome.chunksFlushed = true :=
  ⟨rfl, rfl, rfl, rfl, rfl⟩

/-- Per-session window state for the window-action handler, over an abstract
inventory type: the open windows keyed by wid, the player inventory and the
player eid. -/
structure WinSession (Inv : Type) where
  windows : List (Nat × Inv)
  playerInv : Inv
  eid : Nat

/-- The inventory operations the window-action handler calls; the inventory
classes live outside the protocol module, so they stay abstract. select
returns the acknowledgement flag and the mutated inventory. -/
structure InvOps (Inv : Type) where
  select : Inv → Nat → Bool → Bool → Bool × Inv
  armor : Inv → Nat → Option (Nat × Nat × Nat)
  holdables : Inv → Nat → Option (Nat × Nat × Nat)

/-- Payload of a waction packet. -/
structure WactionPacket where
  wid : Nat
  slot : Nat
  button : Nat
  shift : Nat
  token : Int
  deriving DecidableEq, Repr

/-- Observable outcome of the waction handler. -/
structure WactionResult (Inv : Type) where
  session : WinSession Inv
  packets : List Packet
  broadcasts : List Packet
  closed : Bool
  err : Option PyErr

/-- Lookup of self.windows[wid]. -/
def lookupWindow {Inv : Type} (ws : List (Nat × Inv)) (wid : Nat) :
    Option Inv :=
  match ws with
  | [] => none
  | (w, i) :: rest => if w = wid then some i else lookupWindow rest wid

/-- Store a mutated window inventory back under its wid. -/
def updateWindow {Inv : Type} (ws : List (Nat × Inv)) (wid : Nat) (i : Inv) :
    List (Nat × Inv) :=
  ws.map (fun kv => if kv.1 = wid then (kv.1, i) else kv)

/-- The tail of BravoProtocol.waction once the inventory i is bound: call
i.select, re-send the inventory and possibly broadcast an entity-equipment
packet when it reports a change, and always acknowledge with a window-token
packet carrying the original token and the select result. -/
def wactionBody {Inv : Type} (ops : InvOps Inv) (s : WinSession Inv)
    (c : WactionPacket) (i : Inv) (put : Inv → WinSession Inv) :
    WactionResult Inv :=
  let r := ops.select i c.slot (c.button != 0) (c.shift != 0)
  let s2 := put r.2
  if r.1 then
    let equipB :=
      if c.wid = 0 ∧ ((5 ≤ c.slot ∧ c.slot < 9) ∨ c.slot = 36) then
        let item :=
          if 5 ≤ c.slot ∧ c.slot < 9 then ops.armor r.2 (c.slot - 5)
          else ops.holdables r.2 0
        let eqslot := if 5 ≤ c.slot ∧ c.slot < 9 then 4 - (c.slot - 5) else 0
        match item with
        | none => [Packet.entityEquipment s.eid eqslot 65535 0]
        | some t => [Packet.entityEquipment s.eid eqslot t.1 t.2.1]
      else []
    { session := s2
      packets := [Packet.inventoryData, Packet.windowToken 0 c.token true]
      broadcasts := equipB
      closed := false
      err := none }
  else
    { session := s2
      packets := [Packet.windowToken 0 c.token false]
      broadcasts := []
      closed := false
      err := none }

/-- BravoProtocol.waction: bind the inventory from wid 0 (player inventory)
or an open window; for any other wid the handler sends an error packet and
closes the connection, and the fall-through to i.select then raises
UnboundLocalError on the unbound local i, so nothing further runs. -/
def waction {Inv : Type} (ops : InvOps Inv) (s : WinSession Inv)
    (c : WactionPacket) : WactionResult Inv :=
  if c.wid = 0 then
    wactionBody ops s c s.playerInv (fun i2 => { s with playerInv := i2 })
  else
    match lookupWindow s.windows c.wid with
    | some i =>
        wactionBody ops s c i
          (fun i2 => { s with windows := updateWindow s.windows c.wid i2 })
    | none =>
        { session := s
          packets := [Packet.errorPkt]
          broadcasts := []
          closed := true
          err := some PyErr.unboundLocalError }

/-- Claim C4: a waction whose wid is neither 0 nor an open window key makes
the session send an error packet and close the connection, with no inventory
selection, no inventory re-send, no equipment broadcast and no window-token
acknowledgement afterwards: the handler halts on the unbound inventory local
with the session state unchanged. -/
theorem c4_waction_unknown_wid {Inv : Type} (ops : InvOps Inv)
    (s : WinSession Inv) (c : WactionPacket)
    (h0 : c.wid ≠ 0) (hw : lookupWindow s.windows c.wid = none) :
    waction ops s c =
      { session := s
        packets := [Packet.errorPkt]
        broadcasts := []
        closed := true
        err := some PyErr.unboundLocalError } := by
  unfold waction
  rw [if_neg h0, hw]

/-- Inventory operations over a unit inventory, for concrete runs. -/
def c4Ops : InvOps Unit :=
  { select := fun _ _ _ _ => (false, ())
    armor := fun _ _ => none
    holdables := fun _ _ => none }

/-- Concrete instantiation: wid 5 with no open windows closes with an error
packet and no further action. -/
theorem c4_waction_unknown_wid_witness :
    waction c4Ops { windows := [], playerInv := (), eid := 1 }
        { wid := 5, slot := 0, button := 0, shift := 0, token := 9 } =
      { session := { windows := [], playerInv := (), eid := 1 }
        packets := [Packet.errorPkt]
        broadcasts := []
        closed := true
        err := some PyErr.unboundLocalError } :=
  c4_waction_unknown_wid c4Ops
    { windows := [], playerInv := (), eid := 1 }
    { wid := 5, slot := 0, button := 0, shift := 0, token := 9 }
    (by decide) rfl

/-- Observable outcome of the equip handler. -/
structure EquipResult where
  equipped : Nat
  broadcasts : List Packet
  err : Option PyErr
  deriving DecidableEq, Repr

/-- BravoProtocol.equip: store the packet item value into player.equipped,
read the newly held slot from inventory.holdables, and broadcast an
entity-equipment packet for equipment slot 0 to the other sessions, with
primary 65535 and secondary 0 when the held slot is empty. An item value
outside the holdables range raises IndexError at the list access. -/
def equip (holdables : List (Option (Nat × Nat × Nat))) (eid item : Nat) :
    EquipResult :=
  match holdables.get? item with
  | none =>
      { equipped := item, broadcasts := [], err := some PyErr.indexError }
  | some none =>
      { equipped := item
        broadcasts := [Packet.entityEquipment eid 0 65535 0]
        err := none }
  | some (some t) =>
      { equipped := item
        broadcasts := [Packet.entityEquipment eid 0 t.1 t.2.1]
        err := none }

/-- Claim C10: for an equip packet with a valid holdable index, equipped is
set to the packet item value and the broadcast entity-equipment packet
carries slot 0 with the held item primary and secondary, or primary 65535
and secondary 0 when the newly selected slot is empty. -/
theorem c10_equip (holdables : List (Option (Nat × Nat × Nat)))
    (eid item : Nat) (h : item < holdables.length) :
    (equip holdables eid item).equipped = item ∧
    (equip holdables eid item).err = none ∧
    (holdables.get ⟨item, h⟩ = none →
      (equip holdables eid item).broadcasts =
        [Packet.entityEquipment eid 0 65535 0]) ∧
    (∀ p sec cnt, holdables.get ⟨item, h⟩ = some (p, sec, cnt) →
      (equip holdables eid item).broadcasts =
        [Packet.entityEquipment eid 0 p sec]) := by
  have hg : holdables.get? item = some (holdables.get ⟨item, h⟩) :=
    List.get?_eq_get h
  unfold equip
  rw [hg]
  cases hv : holdables.get ⟨item, h⟩ with
  | none => simp
  | some t =>
      simp only [reduceCtorEq, Option.some.injEq, true_and, false_implies,
        and_true, true_and]
      rintro p sec cnt rfl
      rfl

/-- Concrete instantiation: selecting held slot 1 holding item (5, 0) makes
the broadcast carry primary 5 and secondary 0, and selecting the empty slot 0
makes it carry primary 65535. -/
theorem c10_equip_witness :
    (equip [none, some (5, 0, 1)] 2 1).broadcasts =
      [Packet.entityEquipment 2 0 5 0] ∧
    (equip [none, some (5, 0, 1)] 2 0).broadcasts =
      [Packet.entityEquipment 2 0 65535 0] := by
  constructor
  · exact (c10_equip [none, some (5, 0, 1)] 2 1 (by decide)).2.2.2 5 0 1 rfl
  · exact (c10_equip [none, some (5, 0, 1)] 2 0 (by decide)).2.2.1 rfl

/-- Session lifecycle state relevant to disconnection: whether the keepalive
ping LoopingCall is running, whether the time LoopingCall was created and is
running, the loaded player (by eid), the username and registry membership. -/
structure LifeSession where
  pingRunning : Bool
  timeLoop : Option Bool
  player : Option Nat
  username : String
  inRegistry : Bool
  deriving DecidableEq, Repr

/-- Effects of a connectionLost run. -/
structure LostResult where
  session : LifeSession
  broadcasts : List Packet
  savedPlayers : List String
  chats : List String
  deriving DecidableEq, Repr

/-- BetaServerProtocol.connectionLost: stop the keepalive ping loop when it is
running. -/
def betaConnectionLost (s : LifeSession) : LifeSession :=
  if s.pingRunning then { s with pingRunning := false } else s

/-- BravoProtocol.connectionLost: stop the time loop if one was created, stop
the chunk tasks, and if a player is loaded save it, destroy its avatar,
broadcast the leave message and drop the session from the registry. The
override does not invoke the BetaServerProtocol handler, so the ping loop is
left untouched. -/
def bravoConnectionLost (s : LifeSession) : LostResult :=
  let s1 :=
    match s.timeLoop with
    | some _ => { s with timeLoop := some false }
    | none => s
  match s.player with
  | some eid =>
      { session := { s1 with inRegistry := false }
        broadcasts := [Packet.destroyPkt eid]
        savedPlayers := [s.username]
        chats := [s.username ++ " has left the game."] }
  | none =>
      { session := { s1 with inRegistry := false }
        broadcasts := []
        savedPlayers := []
        chats := [] }

/-- One firing of the keepalive LoopingCall: while the loop runs, update_ping
writes a ping packet. -/
def pingTick (s : LifeSession) : List Packet :=
  if s.pingRunning then [Packet.ping] else []

/-- One firing of the time LoopingCall: while the loop runs, update_time
writes a time packet. -/
def timeTick (s : LifeSession) (t : Int) : List Packet :=
  if s.timeLoop = some true then [Packet.timePkt t] else []

/-- A session as configured right after authenticated(): the base class has
started the ping loop, the time loop is running, the player is loaded and the
session is registered. -/
def c5Session : LifeSession :=
  { pingRunning := true
    timeLoop := some true
    player := some 9
    username := "alice"
    inRegistry := true }

/-- Claim C5: the claim says both periodic loops stop once connectionLost has
run. BravoProtocol.connectionLost stops the time loop but never chains to
BetaServerProtocol.connectionLost, the only place the ping loop is stopped,
so after the handler the ping loop is still running and its next firing still
writes a ping packet; the base handler alone would have stopped it. -/
theorem c5_ping_loop_survives :
    (bravoConnectionLost c5Session).session.pingRunning = true ∧
    pingTick (bravoConnectionLost c5Session).session = [Packet.ping] ∧
    timeTick (bravoConnectionLost c5Session).session 0 = [] ∧
    (betaConnectionLost c5Session).pingRunning = false := by
  decide

/-- The state field of a digging packet. -/
inductive DigState where
  | started
  | stopped
  | dropped
  deriving DecidableEq, Repr

/-- Payload of a digging packet. -/
structure DigPacket where
  state : DigState
  x : Int
  y : Int
  z : Int
  face : Face
  deriving DecidableEq, Repr

/-- Modelled from the spec: bravo.utilities.coords.split_coords is not among
the sources; the spec gives the conversion cx = x >> 4, smallx = x & 15, the
arithmetic shift and mask of Python integers, i.e. flooring division by 16
and the nonnegative remainder. -/
def split_coords (x z : Int) : Int × Int × Int × Int :=
  (Int.fdiv x 16, Int.emod x 16, Int.fdiv z 16, Int.emod z 16)

/-- Modelled from the spec: chunk.get_block(local) — the chunk class is not
among the sources; the spec lists get_block as the block id at local
coordinates, here an association-list lookup with air (0) as default. -/
def Chunk.getBlock (c : Chunk) (coords : Int × Int × Int) : Nat :=
  ((c.blockData.find? (fun kv => decide (kv.1 = coords))).map Prod.snd).getD 0

/-- Modelled from the spec: chunk.destroy(local) — replace the block at the
local coordinates by air (0). -/
def Chunk.destroyAt (c : Chunk) (coords : Int × Int × Int) : Chunk :=
  { c with
      blockData := c.blockData.map
        (fun kv => if kv.1 = coords then (kv.1, 0) else kv) }

/-- The external collaborators of the digging handler, kept abstract: the
inventory operations, the notchy dig policy, the breakable flag of the blocks
table, and the item-drop destination computed from the player location by
location.in_front_of. -/
structure DigExt (Inv : Type) where
  holdables : Inv → Nat → Option (Nat × Nat × Nat)
  consume : Inv → Nat × Nat → Nat → Option Inv
  is1ko : Nat → Option (Nat × Nat × Nat) → Bool
  digTime : Nat → Option (Nat × Nat × Nat) → ℚ
  breakable : Nat → Bool
  dropDest : Int × Int × Int

/-- Per-session state read and written by the digging handler. last_dig is
the optional (coords, block, finish-instant) triple. -/
structure DigSession (Inv : Type) where
  chunks : ChunkDict
  lastDig : Option ((Int × Int × Int) × Nat × ℚ)
  inventory : Inv
  equipped : Nat
  eid : Nat

/-- Observable outcome of the digging handler: the new session state, the
packets written and broadcast, the factory.give calls, the dig-hook
invocations and chunk flushes that ran synchronously, the deferred dig
pipeline (delay, chunk key, coords, block) if one was scheduled, and whether
the connection was closed by an error. -/
structure DigResult (Inv : Type) where
  session : DigSession Inv
  packets : List Packet
  broadcasts : List Packet
  gives : List ((Int × Int × Int) × (Nat × Nat) × Nat)
  hookCalls : List ((Int × Int × Int) × Nat)
  flushed : List (Int × Int)
  scheduled : Option (ℚ × (Int × Int) × (Int × Int × Int) × Nat)
  closed : Bool
  err : Option PyErr

/-- A digging outcome with the given session state and no effects. -/
def mkDigNoop {Inv : Type} (s : DigSession Inv) : DigResult Inv :=
  { session := s
    packets := []
    broadcasts := []
    gives := []
    hookCalls := []
    flushed := []
    scheduled := none
    closed := false
    err := none }

/-- BravoProtocol.run_dig_hooks: destroy the block on the chunk when its
block record is breakable, invoke every dig hook with the pre-destroy block,
then flush the chunk. digHookCount abstracts the configured hook list.
Returns the new session state, the hook invocations and the flushed chunk. -/
def run_dig_hooks {Inv : Type} (ext : DigExt Inv) (digHookCount : Nat)
    (s : DigSession Inv) (key : Int × Int) (coords : Int × Int × Int)
    (blockId : Nat) :
    DigSession Inv × List ((Int × Int × Int) × Nat) × List (Int × Int) :=
  let s2 :=
    if ext.breakable blockId then
      { s with
          chunks := s.chunks.map (fun kv =>
            if kv.1 = PyKey.pairKey key.1 key.2 then
              (kv.1,
                match kv.2 with
                | PyVal.chunkVal ch => PyVal.chunkVal (Chunk.destroyAt ch coords)
                | v => v)
            else kv) }
    else s
  (s2, List.replicate digHookCount (coords, blockId), [key])

/-- The deferred dig completion scheduled by the stopped branch: deferLater
runs run_dig_hooks, and the attached callback then clears last_dig. -/
def firePendingDig {Inv : Type} (ext : DigExt Inv) (digHookCount : Nat)
    (s : DigSession Inv) (key : Int × Int) (coords : Int × Int × Int)
    (blockId : Nat) :
    DigSession Inv × List ((Int × Int × Int) × Nat) × List (Int × Int) :=
  let r := run_dig_hooks ext digHookCount s key coords blockId
  ({ r.1 with lastDig := none }, r.2.1, r.2.2)

/-- The chunk key (bigx, bigz) a digging packet resolves to. -/
def digChunkKeyOf (c : DigPacket) : Int × Int :=
  ((split_coords c.x c.z).1, (split_coords c.x c.z).2.2.1)

/-- The local coordinates (smallx, y, smallz) a digging packet resolves to. -/
def digCoordsOf (c : DigPacket) : Int × Int × Int :=
  ((split_coords c.x c.z).2.1, c.y, (split_coords c.x c.z).2.2.2)

/-- The digging handler once the chunk is bound: read the block, then branch
on the packet state. started either runs the dig pipeline at once (one-shot
policy) or records last_dig with the finish instant now + dig_time; stopped
returns at once when last_dig is unset, clears it and returns on a coords or
block mismatch, and otherwise schedules the dig pipeline after the remaining
time max(finish - now, 0); any other state falls through with no effect. -/
def diggingChunkPhase {Inv : Type} (ext : DigExt Inv) (digHookCount : Nat)
    (now : ℚ) (s : DigSession Inv) (c : DigPacket) (ch : Chunk) :
    DigResult Inv :=
  let coords := digCoordsOf c
  let block := Chunk.getBlock ch coords
  match c.state with
  | DigState.started =>
      let tool := ext.holdables s.inventory s.equipped
      if ext.is1ko block tool then
        let r := run_dig_hooks ext digHookCount s (digChunkKeyOf c) coords block
        { mkDigNoop r.1 with hookCalls := r.2.1, flushed := r.2.2 }
      else
        mkDigNoop
          { s with lastDig := some (coords, block, now + ext.digTime block tool) }
  | DigState.stopped =>
      match s.lastDig with
      | none => mkDigNoop s
      | some ld =>
          if ld.1 ≠ coords ∨ ld.2.1 ≠ block then
            mkDigNoop { s with lastDig := none }
          else
            { mkDigNoop s with
                scheduled := some (max (ld.2.2 - now) 0, digChunkKeyOf c,
                  coords, block) }
  | DigState.dropped => mkDigNoop s

/-- BravoProtocol.digging: discard the (-1, 255, -1) sentinel; handle the
held-item drop pattern (state dropped, face -y, coords (0, 0, 0)); otherwise
resolve the chunk from the cache, sending an error packet and closing when it
is absent, and dispatch on the packet state. -/
def digging {Inv : Type} (ext : DigExt Inv) (digHookCount : Nat) (now : ℚ)
    (s : DigSession Inv) (c : DigPacket) : DigResult Inv :=
  if c.x = -1 ∧ c.z = -1 ∧ c.y = 255 then
    mkDigNoop s
  else if c.state = DigState.dropped ∧ c.face = Face.ny ∧ c.x = 0 ∧ c.y = 0 ∧
      c.z = 0 then
    match ext.holdables s.inventory s.equipped with
    | none => mkDigNoop s
    | some h =>
        match ext.consume s.inventory (h.1, h.2.1) s.equipped with
        | none => mkDigNoop s
        | some inv2 =>
            { mkDigNoop { s with inventory := inv2 } with
                packets := [Packet.inventoryData]
                gives := [(ext.dropDest, (h.1, h.2.1), 1)]
                broadcasts :=
                  if ext.holdables inv2 s.equipped = none then
                    [Packet.entityEquipment s.eid 0 65535 0]
                  else [] }
  else
    match dictLookup s.chunks
        (PyKey.pairKey (digChunkKeyOf c).1 (digChunkKeyOf c).2) with
    | some (PyVal.chunkVal ch) => diggingChunkPhase ext digHookCount now s c ch
    | some (PyVal.intVal _) => { mkDigNoop s with err := some PyErr.attributeError }
    | none => { mkDigNoop s with packets := [Packet.errorPkt], closed := true }

/-- Claim C6: for a digging packet in phase stopped whose chunk is cached,
the handler is a no-op when last_dig is unset; on a coords or block mismatch
it clears last_dig and does nothing else; and on a match it schedules the dig
pipeline after max(finish - now, 0), the deferred completion clearing
last_dig when it runs. -/
theorem c6_digging_stopped {Inv : Type} (ext : DigExt Inv) (digHookCount : Nat)
    (now : ℚ) (s : DigSession Inv) (c : DigPacket) (ch : Chunk)
    (hstate : c.state = DigState.stopped)
    (hsent : ¬(c.x = -1 ∧ c.z = -1 ∧ c.y = 255))
    (hch : dictLookup s.chunks
        (PyKey.pairKey (digChunkKeyOf c).1 (digChunkKeyOf c).2) =
      some (PyVal.chunkVal ch)) :
    (s.lastDig = none → digging ext digHookCount now s c = mkDigNoop s) ∧
    (∀ oc ob t, s.lastDig = some (oc, ob, t) →
      (oc ≠ digCoordsOf c ∨ ob ≠ Chunk.getBlock ch (digCoordsOf c)) →
      digging ext digHookCount now s c =
        mkDigNoop { s with lastDig := none }) ∧
    (∀ oc ob t, s.lastDig = some (oc, ob, t) →
      oc = digCoordsOf c → ob = Chunk.getBlock ch (digCoordsOf c) →
      digging ext digHookCount now s c =
        { mkDigNoop s with
            scheduled := some (max (t - now) 0, digChunkKeyOf c, digCoordsOf c,
              Chunk.getBlock ch (digCoordsOf c)) }) ∧
    (∀ (s2 : DigSession Inv) (key : Int × Int) (coords : Int × Int × Int)
        (blockId : Nat),
      (firePendingDig ext digHookCount s2 key coords blockId).1.lastDig
        = none) := by
  have hnd : ¬(c.state = DigState.dropped ∧ c.face = Face.ny ∧ c.x = 0 ∧
      c.y = 0 ∧ c.z = 0) := by
    rw [hstate]
    rintro ⟨h, -⟩
    exact DigState.noConfusion h
  have hred : digging ext digHookCount now s c =
      diggingChunkPhase ext digHookCount now s c ch := by
    unfold digging
    rw [if_neg hsent, if_neg hnd, hch]
  refine ⟨?_, ?_, ?_, ?_⟩
  · intro hld
    rw [hred]
    unfold diggingChunkPhase
    rw [hstate, hld]
  · intro oc ob t hld hne
    rw [hred]
    unfold diggingChunkPhase
    rw [hstate, hld]
    rcases hne with hne | hne <;> simp [mkDigNoop, hne]
  · intro oc ob t hld he1 he2
    rw [hred]
    unfold diggingChunkPhase
    rw [hstate, hld]
    simp [mkDigNoop, he1, he2]
  · intro s2 key coords blockId
    rfl

/-- A trivial external bundle over the unit inventory. -/
def c6Ext : DigExt Unit :=
  { holdables := fun _ _ => none
    consume := fun _ _ _ => none
    is1ko := fun _ _ => false
    digTime := fun _ _ => 0
    breakable := fun _ => true
    dropDest := (0, 0, 0) }

/-- Chunk (0, 0) holding block id 1 at local coordinates (5, 64, 5). -/
def c6Chunk : Chunk :=
  { cx := 0
    cz := 0
    entities := []
    signs := []
    blockData := [((5, 64, 5), 1)] }

/-- A session in the middle of a timed dig of that block, finishing at
instant 100. -/
def c6Session : DigSession Unit :=
  { chunks := [(PyKey.pairKey 0 0, PyVal.chunkVal c6Chunk)]
    lastDig := some ((5, 64, 5), 1, 100)
    inventory := ()
    equipped := 0
    eid := 3 }

/-- The matching stopped packet. -/
def c6Packet : DigPacket :=
  { state := DigState.stopped, x := 5, y := 64, z := 5, face := Face.py }

/-- Concrete instantiation: a matching stopped packet at time 30 schedules
the pipeline after 70 seconds, writes nothing, and the completion clears
last_dig. -/
theorem c6_digging_stopped_witness :
    (digging c6Ext 2 30 c6Session c6Packet).scheduled =
      some (70, (0, 0), (5, 64, 5), 1) ∧
    (digging c6Ext 2 30 c6Session c6Packet).packets = [] ∧
    (firePendingDig c6Ext 2 c6Session (0, 0) (5, 64, 5) 1).1.lastDig
      = none := by
  have h := c6_digging_stopped c6Ext 2 30 c6Session c6Packet c6Chunk rfl
    (by decide) (by decide)
  have h3 := h.2.2.1 (5, 64, 5) 1 100 rfl (by decide) (by decide)
  refine ⟨?_, ?_, h.2.2.2 c6Session (0, 0) (5, 64, 5) 1⟩
  · rw [h3]
    show some (max (100 - 30 : ℚ) 0, digChunkKeyOf c6Packet, digCoordsOf c6Packet,
        Chunk.getBlock c6Chunk (digCoordsOf c6Packet)) = _
    norm_num
    decide
  · rw [h3]
    rfl

end Bravo
